import Mathlib

/-!
Shallow embedding of the Socket.IO signaling backend (the connection registry
and message-routing engine of `server.js`, the registry-bearing variant).
The registry is the JS `Map` named `devices`; each `socket.on` handler is
translated into a Lean function over an explicit registry state, returning the
list of emitted events.  JS exceptions (an uncaught `JSON.parse` throw, or a
property access on `null`/`undefined`) are modelled with `Except Unit`.
-/

/-- Model of a JavaScript runtime value as exchanged in Socket.IO payloads:
the `undefined` constructor is the JS undefined value, and objects are ordered
field lists.  Integer-valued numbers (the only kind the server itself builds)
use `num`; a non-integer JSON number is kept exactly as a decimal mantissa
`m` times `10 ^ e10` with `e10 < 0` and `10` not dividing `m` — the binary
float rounding of the JS runtime is abstracted to the exact decimal value. -/
inductive JVal where
  | undefined
  | null
  | bool (b : Bool)
  | num (n : Int)
  | numDec (m : Int) (e10 : Int)
  | str (s : String)
  | arr (elems : List JVal)
  | obj (fields : List (String × JVal))

/-- JS truthiness of a value (`if (v)`): `undefined`, `null`, `false`, `0`
and the empty string are falsy; objects and arrays are always truthy. -/
def JVal.truthy : JVal → Bool
  | .undefined => false
  | .null => false
  | .bool b => b
  | .num n => n != 0
  | .numDec m _ => m != 0
  | .str s => s != ""
  | .arr _ => true
  | .obj _ => true

/-- JS `a || b`: the first operand when truthy, otherwise the second. -/
def jsOr (a b : JVal) : JVal := if a.truthy then a else b

/-- Property read `v[k]` on a base already known non-null: object fields by
name (later duplicate keys win, as in JS object literals); primitives and
arrays have none of the property names this server reads, so yield
`undefined`. -/
def getField (v : JVal) (k : String) : JVal :=
  match v with
  | .obj fields =>
    match (fields.reverse.find? (fun f => f.1 == k)) with
    | some f => f.2
    | none => .undefined
  | _ => .undefined

/-- Property read `v[k]` as the JS runtime performs it: reading a property of
`null` or `undefined` throws a TypeError, modelled as `Except.error`. -/
def jsMember (v : JVal) (k : String) : Except Unit JVal :=
  match v with
  | .null => .error ()
  | .undefined => .error ()
  | _ => .ok (getField v k)

/-- Left brace character (code 123). -/
def lbrace : Char := Char.ofNat 123

/-- Right brace character (code 125). -/
def rbrace : Char := Char.ofNat 125

/-- Drop JSON insignificant whitespace. -/
def skipWs (cs : List Char) : List Char :=
  cs.dropWhile (fun c => c == ' ' || c == '\t' || c == '\n' || c == '\r')

/-- Value of a hexadecimal digit, as in a `\u` escape. -/
def hexVal? (c : Char) : Option Nat :=
  if c.isDigit then some (c.toNat - 48)
  else if c.toNat ≥ 97 && c.toNat ≤ 102 then some (c.toNat - 87)
  else if c.toNat ≥ 65 && c.toNat ≤ 70 then some (c.toNat - 55)
  else none

/-- The character denoted by a single-character JSON escape; `none` for an
invalid escape (which makes `JSON.parse` throw). -/
def escChar? (e : Char) : Option Char :=
  if e == '"' then some '"'
  else if e == '\\' then some '\\'
  else if e == '/' then some '/'
  else if e == 'b' then some (Char.ofNat 8)
  else if e == 'f' then some (Char.ofNat 12)
  else if e == 'n' then some (Char.ofNat 10)
  else if e == 'r' then some (Char.ofNat 13)
  else if e == 't' then some (Char.ofNat 9)
  else none

/-- Scan the remainder of a JSON string literal after the opening quote into
UTF-16 code units: all JSON escapes (`\"`, `\\`, `\/`, `\b`, `\f`, `\n`,
`\r`, `\t`, `\uXXXX`) are decoded, any other escape fails, and a raw
control character (below U+0020) fails, exactly as in `JSON.parse`. -/
def parseStrUnits : List Char → Option (List Nat × List Char)
  | [] => none
  | c :: rest =>
    if c == '"' then some ([], rest)
    else if c == '\\' then
      match rest with
      | [] => none
      | e :: rest2 =>
        if e == 'u' then
          match rest2 with
          | h1 :: h2 :: h3 :: h4 :: rest3 =>
            match hexVal? h1, hexVal? h2, hexVal? h3, hexVal? h4 with
            | some a, some b, some c2, some d =>
              (parseStrUnits rest3).map
                (fun p => ((((a * 16 + b) * 16 + c2) * 16 + d) :: p.1, p.2))
            | _, _, _, _ => none
          | _ => none
        else
          match escChar? e with
          | some ch => (parseStrUnits rest2).map (fun p => (ch.toNat :: p.1, p.2))
          | none => none
    else if c.toNat < 32 then none
    else (parseStrUnits rest).map (fun p => (c.toNat :: p.1, p.2))

/-- The character of one code unit that does not start a surrogate pair: a
lone surrogate — which a JS string can hold but a Unicode scalar string
cannot — is approximated by the replacement character U+FFFD. -/
def charOfUnit (u : Nat) : Char :=
  if u ≥ 0xD800 ∧ u ≤ 0xDFFF then Char.ofNat 0xFFFD else Char.ofNat u

/-- Combine the scanned UTF-16 code units into characters: a surrogate pair
becomes its supplementary-plane character. -/
def unitsToChars : List Nat → List Char
  | [] => []
  | [u] => [charOfUnit u]
  | u :: u2 :: rest =>
    if (u ≥ 0xD800 ∧ u ≤ 0xDBFF) ∧ (u2 ≥ 0xDC00 ∧ u2 ≤ 0xDFFF) then
      Char.ofNat (0x10000 + (u - 0xD800) * 0x400 + (u2 - 0xDC00)) :: unitsToChars rest
    else charOfUnit u :: unitsToChars (u2 :: rest)

/-- Parse the remainder of a JSON string literal after the opening quote. -/
def parseStringRest (cs : List Char) : Option (String × List Char) :=
  (parseStrUnits cs).map (fun p => (String.mk (unitsToChars p.1), p.2))

/-- Decimal value of a digit run. -/
def digitsVal : List Char → Nat → Nat
  | [], acc => acc
  | c :: rest, acc => digitsVal rest (acc * 10 + (c.toNat - 48))

/-- Split off a leading run of decimal digits. -/
def parseDigitRun (cs : List Char) : List Char × List Char :=
  (cs.takeWhile Char.isDigit, cs.dropWhile Char.isDigit)

/-- Ten to a natural power. -/
def pow10n : Nat → Nat
  | 0 => 1
  | n + 1 => 10 * pow10n n

/-- Strip up to `k` factors of ten from a mantissa, returning the reduced
mantissa and how many tenths remain. -/
def stripTens : Nat → Nat → Nat × Nat
  | m0, 0 => (m0, 0)
  | m0, k + 1 => if m0 % 10 == 0 then stripTens (m0 / 10) k else (m0, k + 1)

/-- The runtime value of a parsed JSON numeral with the given sign, integer
digits, fraction digits and decimal exponent: an integer-valued numeral
yields `num`, any other yields the exact `numDec` form. -/
def mkNumJVal (neg : Bool) (intDs fracDs : List Char) (exp : Int) : JVal :=
  let m0 : Nat := digitsVal (intDs ++ fracDs) 0
  let e : Int := exp - Int.ofNat fracDs.length
  if 0 ≤ e then
    let v := m0 * pow10n e.toNat
    .num (if neg then -(Int.ofNat v) else Int.ofNat v)
  else
    let p := stripTens m0 (-e).toNat
    if p.2 == 0 then .num (if neg then -(Int.ofNat p.1) else Int.ofNat p.1)
    else .numDec (if neg then -(Int.ofNat p.1) else Int.ofNat p.1) (-(Int.ofNat p.2))

/-- Parse the optional fraction part of a JSON numeral: a dot must be
followed by at least one digit. -/
def parseFracPart : List Char → Option (List Char × List Char)
  | '.' :: rest =>
    let p := parseDigitRun rest
    if p.1.isEmpty then none else some (p.1, p.2)
  | cs => some ([], cs)

/-- Parse the optional exponent part of a JSON numeral. -/
def parseExpPart : List Char → Option (Int × List Char)
  | c :: rest =>
    if c == 'e' || c == 'E' then
      let (sgn, rest2) :=
        match rest with
        | '+' :: r => ((1 : Int), r)
        | '-' :: r => ((-1 : Int), r)
        | _ => ((1 : Int), rest)
      let p := parseDigitRun rest2
      if p.1.isEmpty then none
      else some (sgn * Int.ofNat (digitsVal p.1 0), p.2)
    else some (0, c :: rest)
  | [] => some (0, [])

/-- Parse a JSON numeral: `-? (0 | [1-9][0-9]*) (. [0-9]+)? ([eE][+-]?[0-9]+)?`.
A leading zero followed by a digit, a bare sign, a dot or exponent marker
without digits all fail, exactly as in `JSON.parse`. -/
def parseNumLit (cs : List Char) : Option (JVal × List Char) :=
  let sp : Bool × List Char :=
    match cs with
    | '-' :: rest => (true, rest)
    | _ => (false, cs)
  match sp.2 with
  | [] => none
  | c :: rest =>
    if !c.isDigit then none
    else if c == '0' && (match rest with | d :: _ => d.isDigit | [] => false) then none
    else
      let intP := parseDigitRun (c :: rest)
      match parseFracPart intP.2 with
      | none => none
      | some (fracDs, cs3) =>
        match parseExpPart cs3 with
        | none => none
        | some (exp, cs4) => some (mkNumJVal sp.1 intP.1 fracDs exp, cs4)

mutual

/-- Fuelled recursive-descent parser for JSON text (null, booleans, numbers,
strings, arrays, objects); models `JSON.parse` succeeding with a value or
throwing (`none`).  The fuel bounds nesting depth and one unit is consumed
per opening bracket, so the initial fuel of length + 1 never runs out. -/
def parseVal : Nat → List Char → Option (JVal × List Char)
  | 0, _ => none
  | fuel + 1, cs =>
    match skipWs cs with
    | 'n' :: 'u' :: 'l' :: 'l' :: rest => some (.null, rest)
    | 't' :: 'r' :: 'u' :: 'e' :: rest => some (.bool true, rest)
    | 'f' :: 'a' :: 'l' :: 's' :: 'e' :: rest => some (.bool false, rest)
    | '"' :: rest => (parseStringRest rest).map (fun p => (.str p.1, p.2))
    | c :: rest =>
      if c == '[' then
        match skipWs rest with
        | ']' :: rest2 => some (.arr [], rest2)
        | cs2 => (parseItems fuel cs2).map (fun p => (.arr p.1, p.2))
      else if c == lbrace then
        match skipWs rest with
        | d :: rest2 =>
          if d == rbrace then some (.obj [], rest2)
          else (parseMembers fuel (d :: rest2)).map (fun p => (.obj p.1, p.2))
        | [] => none
      else
        parseNumLit (c :: rest)
    | [] => none

/-- Parse the comma-separated elements of a JSON array up to `]`. -/
def parseItems : Nat → List Char → Option (List JVal × List Char)
  | 0, _ => none
  | fuel + 1, cs =>
    match parseVal fuel cs with
    | none => none
    | some (v, rest) =>
      match skipWs rest with
      | ',' :: rest2 => (parseItems fuel rest2).map (fun p => (v :: p.1, p.2))
      | ']' :: rest2 => some ([v], rest2)
      | _ => none

/-- Parse the comma-separated members of a JSON object up to the closing
brace. -/
def parseMembers : Nat → List Char → Option (List (String × JVal) × List Char)
  | 0, _ => none
  | fuel + 1, cs =>
    match skipWs cs with
    | '"' :: rest =>
      match parseStringRest rest with
      | none => none
      | some (k, rest2) =>
        match skipWs rest2 with
        | ':' :: rest3 =>
          match parseVal fuel rest3 with
          | none => none
          | some (v, rest4) =>
            match skipWs rest4 with
            | ',' :: rest5 => (parseMembers fuel rest5).map (fun p => ((k, v) :: p.1, p.2))
            | d :: rest5 =>
              if d == rbrace then some ([(k, v)], rest5) else none
            | [] => none
        | _ => none
    | _ => none

end

/-- Model of `JSON.parse` on a whole string: `none` models a thrown
SyntaxError. -/
def jsonParse (s : String) : Option JVal :=
  match parseVal (s.length + 1) s.data with
  | some (v, rest) => if (skipWs rest).isEmpty then some v else none
  | none => none

/-- Escape quote and backslash when rendering a JSON string literal. -/
def quoteChars : List Char → String
  | [] => ""
  | c :: rest =>
    (if c == '"' then "\\\"" else if c == '\\' then "\\\\" else String.singleton c)
      ++ quoteChars rest

/-- Render a JSON string literal. -/
def quoteStr (s : String) : String := "\"" ++ quoteChars s.data ++ "\""

/-- Render a non-integer decimal number `m * 10 ^ e10` (with `e10 < 0` and
ten not dividing `m`, the normal form `mkNumJVal` produces) in the plain
decimal notation JS uses for such values. -/
def renderDec (m : Int) (e10 : Int) : String :=
  let k := (-e10).toNat
  let ds := (toString m.natAbs).data
  let ds := List.replicate (k + 1 - ds.length) '0' ++ ds
  (if m < 0 then "-" else "") ++ String.mk (ds.take (ds.length - k)) ++ "."
    ++ String.mk (ds.drop (ds.length - k))

mutual

/-- Model of `JSON.stringify`: `none` models the `undefined` result (for an
`undefined` argument); object members with `undefined` values are omitted and
`undefined` array elements render as `null`, as in JS. -/
def jsonStringify : JVal → Option String
  | .undefined => none
  | .null => some "null"
  | .bool true => some "true"
  | .bool false => some "false"
  | .num n => some (toString n)
  | .numDec m e10 => some (renderDec m e10)
  | .str s => some (quoteStr s)
  | .arr xs => some ("[" ++ String.intercalate "," (stringifyItems xs) ++ "]")
  | .obj fs =>
    some (String.singleton lbrace ++ String.intercalate "," (stringifyMembers fs)
      ++ String.singleton rbrace)

/-- Rendered elements of an array (`undefined` becomes `null`). -/
def stringifyItems : List JVal → List String
  | [] => []
  | x :: xs =>
    (match jsonStringify x with
     | some s => s
     | none => "null") :: stringifyItems xs

/-- Rendered members of an object (`undefined`-valued members omitted). -/
def stringifyMembers : List (String × JVal) → List String
  | [] => []
  | (k, v) :: rest =>
    match jsonStringify v with
    | none => stringifyMembers rest
    | some s => (quoteStr k ++ ":" ++ s) :: stringifyMembers rest

end

/-- The JS result of `JSON.stringify` as a runtime value: a string, or
`undefined` when stringify yields no output. -/
def stringifyJs (v : JVal) : JVal :=
  match jsonStringify v with
  | some s => .str s
  | none => .undefined

mutual

/-- JS string coercion of a value (`String(v)` / template-literal
interpolation), restricted to the shapes this server coerces. -/
def jsToString : JVal → String
  | .undefined => "undefined"
  | .null => "null"
  | .bool true => "true"
  | .bool false => "false"
  | .num n => toString n
  | .numDec m e10 => renderDec m e10
  | .str s => s
  | .arr xs => jsToStringItems xs
  | .obj _ => "[object Object]"

/-- JS array-to-string coercion: elements joined by commas. -/
def jsToStringItems : List JVal → String
  | [] => ""
  | [x] => jsToString x
  | x :: xs => jsToString x ++ "," ++ jsToStringItems xs

end

/-- A registry entry, from `devices.set(deviceId, ... socketId, name,
connectedAt ...)`; `lastSeen` is set later by the heartbeat handler and is
absent (`none`) until then.  Timestamps are integers (milliseconds). -/
structure Device where
  socketId : String
  name : String
  connectedAt : Int
  lastSeen : Option Int
deriving DecidableEq, Repr

/-- The `devices` JS `Map`: deviceId (possibly the `undefined` key, modelled
as `none`) to `Device`, in insertion order. -/
abbrev Registry := List (Option String × Device)

/-- `Map.get` with the strict-equality key semantics of JS: a string argument
matches a string key, `undefined` matches the `undefined` key. -/
def keyEqJVal (k : Option String) (v : JVal) : Bool :=
  match k, v with
  | some s, .str t => s == t
  | none, .undefined => true
  | _, _ => false

/-- `devices.get(v)` where `v` is an arbitrary runtime value (as passed by
event handlers to `sendToDevice`). -/
def mapGetJ : Registry → JVal → Option Device
  | [], _ => none
  | (k, d) :: rest, v => if keyEqJVal k v then some d else mapGetJ rest v

/-- `devices.get(k)` / `devices.has(k)` by key. -/
def mapGetK : Registry → Option String → Option Device
  | [], _ => none
  | (k, d) :: rest, k0 => if k = k0 then some d else mapGetK rest k0

/-- `devices.set(k, v)`: replace the entry for an existing key in place,
otherwise append.  (A JS Map holds at most one entry per key, so replacing
the first occurrence is exact on every state the Map can reach.) -/
def mapSet : Registry → Option String → Device → Registry
  | [], k, v => [(k, v)]
  | (k0, d) :: rest, k, v =>
    if k0 = k then (k, v) :: rest else (k0, d) :: mapSet rest k v

/-- `devices.delete(k)`: remove the entry for the key. -/
def mapDelete : Registry → Option String → Registry
  | [], _ => []
  | (k0, d) :: rest, k => if k0 = k then rest else (k0, d) :: mapDelete rest k

/-- Number of registry entries stored under a key. -/
def countKey : Registry → Option String → Nat
  | [], _ => 0
  | (k0, _) :: rest, k => (if k0 = k then 1 else 0) + countKey rest k

/-- `getDeviceIdBySocketId`: linear scan returning the first key whose entry
holds the socket id; `none` models the JS `null` result. -/
def getDeviceIdBySocketId : Registry → String → Option (Option String)
  | [], _ => none
  | (k, d) :: rest, sid =>
    if d.socketId == sid then some k else getDeviceIdBySocketId rest sid

/-- Addressing of an outbound emit: `io.to(sid).emit` or `socket.emit`
(a single socket), `socket.broadcast.emit` (everyone but the sender), or
`io.emit` (everyone). -/
inductive EmitTarget where
  | toSocket (sid : String)
  | broadcastExcept (sid : String)
  | all
deriving DecidableEq, Repr

/-- Payload of an outbound emit: a runtime value, or the roster array built by
`Array.from(devices.entries())`. -/
inductive OutPayload where
  | raw (v : JVal)
  | roster (snap : Registry)

/-- One outbound `emit` performed by a handler. -/
structure Emit where
  tgt : EmitTarget
  event : String
  payload : OutPayload

/-- Whether an emit is delivered to the connection `r`, given the list of
currently connected socket ids. -/
def Emit.deliversTo (conns : List String) (e : Emit) (r : String) : Bool :=
  conns.contains r &&
    match e.tgt with
    | .toSocket s => r == s
    | .broadcastExcept s => r != s
    | .all => true

/-- Connection-establishment metadata (`socket.handshake.query`): each field
is a string when present in the query, `none` when absent (`undefined`). -/
structure Query where
  type : Option String
  deviceId : Option String
  name : Option String
deriving DecidableEq, Repr

/-- `socket.handshake.query.name || 'Unknown Device'` (JS truthiness: an
absent or empty name falls back to the placeholder). -/
def resolveName : Option String → String
  | some n => if n = "" then "Unknown Device" else n
  | none => "Unknown Device"

/-- The `io.on('connection')` classification: a connection whose query has
`type === 'device'` is registered in `devices` and the updated roster is
broadcast to everyone else; any other connection is an admin dashboard and
immediately receives the current roster, addressed only to it. -/
def handleConnection (reg : Registry) (sock : String) (now : Int) (q : Query) :
    Registry × List Emit :=
  if q.type = some "device" then
    let reg' := mapSet reg q.deviceId
      { socketId := sock, name := resolveName q.name, connectedAt := now, lastSeen := none }
    (reg', [{ tgt := .broadcastExcept sock, event := "device_list_update", payload := .roster reg' }])
  else
    (reg, [{ tgt := .toSocket sock, event := "device_list_update", payload := .roster reg }])

/-- The `disconnect` handler registered in the device branch: it deletes the
deviceId captured at connection time (unconditionally) and broadcasts the
updated roster from the disconnecting socket. -/
def handleDeviceDisconnect (reg : Registry) (sock : String) (deviceId : Option String) :
    Registry × List Emit :=
  let reg' := mapDelete reg deviceId
  (reg', [{ tgt := .broadcastExcept sock, event := "device_list_update", payload := .roster reg' }])

/-- The `sendToDevice` helper: look the target up in `devices` and emit to its
socket when the entry and its `socketId` are both truthy; otherwise emit
nothing. -/
def sendToDevice (reg : Registry) (targetId : JVal) (event : String) (data : OutPayload) :
    List Emit :=
  match mapGetJ reg targetId with
  | some d => if d.socketId != "" then [{ tgt := .toSocket d.socketId, event := event, payload := data }] else []
  | none => []

/-- The command-style events relayed from the dashboard: one constructor per
`socket.on` handler that takes a target id argument and calls `sendToDevice`
when the argument is truthy. -/
inductive Cmd where
  | get_status
  | start_monitoring
  | stop_monitoring
  | request_camera_start
  | start_video
  | stop_video
  | switch_camera
  | toggle_flash
  | toggle_front_flash
  | toggle_back_flash
  | hide_app
  | show_app
  | brightness_up
  | brightness_down
  | START_MANUAL_RECORDING
  | STOP_MANUAL_RECORDING
  | get_config
  | get_storage_stats
  | hide_app_icon
  | show_app_icon
  | get_permissions
deriving DecidableEq, Repr

/-- The renamed outbound event for each command (`get_status` emits
`GET_STATUS`, `start_monitoring` emits `START_AUDIO`, ...), read off each
handler in the source. -/
def cmdName : Cmd → String
  | .get_status => "GET_STATUS"
  | .start_monitoring => "START_AUDIO"
  | .stop_monitoring => "STOP_AUDIO"
  | .request_camera_start => "REQUEST_CAMERA_START"
  | .start_video => "START_CAM"
  | .stop_video => "STOP_CAM"
  | .switch_camera => "SWITCH_CAM"
  | .toggle_flash => "TOGGLE_FLASH"
  | .toggle_front_flash => "TOGGLE_FRONT_FLASH"
  | .toggle_back_flash => "TOGGLE_BACK_FLASH"
  | .hide_app => "HIDE_APP"
  | .show_app => "SHOW_APP"
  | .brightness_up => "BRIGHTNESS_UP"
  | .brightness_down => "BRIGHTNESS_DOWN"
  | .START_MANUAL_RECORDING => "START_MANUAL_RECORDING"
  | .STOP_MANUAL_RECORDING => "STOP_MANUAL_RECORDING"
  | .get_config => "GET_CONFIG"
  | .get_storage_stats => "GET_STORAGE_STATS"
  | .hide_app_icon => "HIDE_APP_ICON"
  | .show_app_icon => "SHOW_APP_ICON"
  | .get_permissions => "GET_PERMISSIONS"

/-- Whether the handler for the command has an `else socket.broadcast.emit`
fallback when no target id is given, read off each handler in the source
(`get_status` through `brightness_down` have one; `request_camera_start`,
the front/back flash toggles, `hide_app`/`show_app`, manual recording, the
config/storage/app-icon/permission getters have none). -/
def cmdFallback : Cmd → Bool
  | .get_status => true
  | .start_monitoring => true
  | .stop_monitoring => true
  | .request_camera_start => false
  | .start_video => true
  | .stop_video => true
  | .switch_camera => true
  | .toggle_flash => true
  | .toggle_front_flash => false
  | .toggle_back_flash => false
  | .hide_app => false
  | .show_app => false
  | .brightness_up => true
  | .brightness_down => true
  | .START_MANUAL_RECORDING => false
  | .STOP_MANUAL_RECORDING => false
  | .get_config => false
  | .get_storage_stats => false
  | .hide_app_icon => false
  | .show_app_icon => false
  | .get_permissions => false

/-- An inbound routed event received on an established connection (each
constructor is one `socket.on` registration other than `disconnect`). -/
inductive InEvent where
  | cmd (c : Cmd) (targetId : JVal)
  | update_config (data : JVal)
  | update_video_quality (data : JVal)
  | audio_stream (data : JVal)
  | video_frame (data : JVal)
  | status_update (status : JVal)
  | camera_ready (deviceId : JVal)
  | camera_status (data : JVal)
  | permission_report (data : JVal)
  | current_config (config : JVal)
  | storage_stats (stats : JVal)
  | heartbeat (timestamp : Int)
  | log (message : JVal)
  | webrtc_offer (data : JVal)
  | webrtc_answer (data : JVal)
  | webrtc_ice_candidate (data : JVal)

/-- Whether the event is the heartbeat liveness signal. -/
def InEvent.isHeartbeat : InEvent → Bool
  | .heartbeat _ => true
  | _ => false

/-- The `pong_response` reply of the heartbeat handler: server time, the
client-sent timestamp, and latency computed as receipt time minus the
client timestamp (the clock model reads `Date.now()` once). -/
def pongEmit (sender : String) (now timestamp : Int) : Emit :=
  { tgt := .toSocket sender, event := "pong_response",
    payload := .raw (.obj
      [("serverTime", .num now), ("clientTime", .num timestamp),
       ("latency", .num (now - timestamp))]) }

/-- Registry update of the heartbeat handler: when the reverse lookup of the
sender yields a truthy deviceId that the registry holds, rewrite that entry
with `lastSeen` set to the current time; otherwise leave the registry
unchanged. -/
def heartbeatReg (reg : Registry) (sender : String) (now : Int) : Registry :=
  match getDeviceIdBySocketId reg sender with
  | some (some s) =>
    if s != "" then
      match mapGetK reg (some s) with
      | some d => mapSet reg (some s) { d with lastSeen := some now }
      | none => reg
    else reg
  | _ => reg

/-- One routed event processed by the `io.on('connection')` handlers of the
source: given the registry, the sender socket id and the current clock
(`Date.now()` / `new Date()`), produce the new registry and the emitted
events, or `Except.error` when the JS handler throws (an uncaught
`JSON.parse` failure in `webrtc_offer`, or a property read on a
null/undefined payload). -/
def handleEvent (reg : Registry) (sender : String) (now : Int) :
    InEvent → Except Unit (Registry × List Emit)
  | .cmd c targetId =>
    .ok (reg,
      if targetId.truthy then sendToDevice reg targetId (cmdName c) (.raw .null)
      else if cmdFallback c then
        [{ tgt := .broadcastExcept sender, event := cmdName c, payload := .raw .undefined }]
      else [])
  | .update_config data =>
    match jsMember data "targetId" with
    | .error e => .error e
    | .ok t =>
      .ok (reg,
        if t.truthy then sendToDevice reg t "UPDATE_CONFIG" (.raw (getField data "config"))
        else [{ tgt := .broadcastExcept sender, event := "UPDATE_CONFIG", payload := .raw data }])
  | .update_video_quality data =>
    match jsMember data "quality" with
    | .error e => .error e
    | .ok _ =>
      match jsMember data "targetId" with
      | .error e => .error e
      | .ok t =>
        .ok (reg,
          if t.truthy then sendToDevice reg t "UPDATE_VIDEO_QUALITY" (.raw data)
          else [])
  | .audio_stream data =>
    .ok (reg,
      match getDeviceIdBySocketId reg sender with
      | some (some s) =>
        if s != "" then
          [{ tgt := .all, event := "audio_data",
             payload := .raw (.obj [("deviceId", .str s), ("data", data)]) }]
        else []
      | _ => [])
  | .video_frame data =>
    .ok (reg,
      match getDeviceIdBySocketId reg sender with
      | some (some s) =>
        if s != "" then
          [{ tgt := .all, event := "video_data",
             payload := .raw (.obj [("deviceId", .str s), ("data", data)]) }]
        else []
      | _ => [])
  | .status_update status =>
    .ok (reg, [{ tgt := .all, event := "server_log",
                 payload := .raw (.str ("App Status: " ++ jsToString status)) }])
  | .camera_ready deviceId =>
    .ok (reg, [{ tgt := .broadcastExcept sender, event := "camera_ready", payload := .raw deviceId }])
  | .camera_status data =>
    match jsMember data "status" with
    | .error e => .error e
    | .ok _ =>
      .ok (reg, [{ tgt := .broadcastExcept sender, event := "camera_status", payload := .raw data }])
  | .permission_report data =>
    .ok (reg,
      match getDeviceIdBySocketId reg sender with
      | some (some s) =>
        if s != "" then
          [{ tgt := .all, event := "permission_report",
             payload := .raw (.obj [("deviceId", .str s), ("report", data)]) }]
        else []
      | _ => [])
  | .current_config config =>
    .ok (reg, [{ tgt := .broadcastExcept sender, event := "current_config", payload := .raw config }])
  | .storage_stats stats =>
    .ok (reg, [{ tgt := .broadcastExcept sender, event := "storage_stats", payload := .raw stats }])
  | .heartbeat timestamp =>
    .ok (heartbeatReg reg sender now, [pongEmit sender now timestamp])
  | .log message =>
    let idStr :=
      match getDeviceIdBySocketId reg sender with
      | some (some s) => if s != "" then s else "unknown"
      | _ => "unknown"
    .ok (reg, [{ tgt := .all, event := "server_log",
                 payload := .raw (.str ("[" ++ idStr ++ "] " ++ jsToString message)) }])
  | .webrtc_offer data =>
    match (match data with
           | .str s => jsonParse s
           | v => some v) with
    | none => .error ()
    | some payload =>
      match jsMember payload "targetId" with
      | .error e => .error e
      | .ok t =>
        .ok (reg,
          if t.truthy then
            sendToDevice reg t "webrtc_offer"
              (.raw (stringifyJs (jsOr (getField payload "offer") payload)))
          else
            [{ tgt := .broadcastExcept sender, event := "webrtc_offer", payload := .raw data }])
  | .webrtc_answer data =>
    .ok (reg, [{ tgt := .broadcastExcept sender, event := "webrtc_answer", payload := .raw data }])
  | .webrtc_ice_candidate data =>
    let payload :=
      match data with
      | .str s =>
        match jsonParse s with
        | some p => p
        | none => data
      | v => v
    match jsMember payload "targetId" with
    | .error e => .error e
    | .ok t =>
      .ok (reg,
        if t.truthy then
          sendToDevice reg t "webrtc_ice_candidate"
            (.raw (match getField payload "candidate" with
                   | .str s => .str s
                   | c => stringifyJs c))
        else
          [{ tgt := .broadcastExcept sender, event := "webrtc_ice_candidate", payload := .raw data }])

/-- A connection-lifecycle event acting on the registry: a connection opening
with its handshake query, or a device-branch disconnect (which deletes the
deviceId captured at connection time). -/
inductive ConnEvent where
  | connect (sock : String) (now : Int) (q : Query)
  | disconnectDevice (sock : String) (deviceId : Option String)

/-- Registry effect of one connection-lifecycle event. -/
def applyConn (reg : Registry) : ConnEvent → Registry
  | .connect sock now q => (handleConnection reg sock now q).1
  | .disconnectDevice sock id => (handleDeviceDisconnect reg sock id).1

/-- Registry after a sequence of connection-lifecycle events. -/
def applyTrace (reg : Registry) : List ConnEvent → Registry
  | [] => reg
  | e :: rest => applyTrace (applyConn reg e) rest


/-- The keys of the registry, in insertion order. -/
def keys : Registry → List (Option String)
  | [] => []
  | (k, _) :: rest => k :: keys rest

/-- Keys after `mapSet` come from the old keys or are the inserted key. -/
theorem mem_keys_mapSet {m : Registry} {k a : Option String} {v : Device}
    (h : a ∈ keys (mapSet m k v)) : a ∈ keys m ∨ a = k := by
  induction m with
  | nil =>
    simp [mapSet, keys] at h
    right; exact h
  | cons kv rest ih =>
    obtain ⟨k0, d⟩ := kv
    by_cases hk : k0 = k
    · simp [mapSet, hk, keys] at h
      rcases h with h | h
      · right; exact h
      · left; simp [keys, h]
    · simp [mapSet, hk, keys] at h ⊢
      rcases h with h | h
      · left; left; exact h
      · rcases ih h with h2 | h2
        · left; right; exact h2
        · right; exact h2

/-- `mapSet` preserves key uniqueness. -/
theorem nodup_mapSet {m : Registry} {k : Option String} {v : Device}
    (h : (keys m).Nodup) : (keys (mapSet m k v)).Nodup := by
  induction m with
  | nil => simp [mapSet, keys]
  | cons kv rest ih =>
    obtain ⟨k0, d⟩ := kv
    rw [keys, List.nodup_cons] at h
    by_cases hk : k0 = k
    · subst hk
      simpa [mapSet, keys, List.nodup_cons] using h
    · rw [mapSet, if_neg hk, keys, List.nodup_cons]
      refine ⟨fun hmem => ?_, ih h.2⟩
      rcases mem_keys_mapSet hmem with h2 | h2
      · exact h.1 h2
      · exact hk h2

/-- Keys after `mapDelete` come from the old keys. -/
theorem mem_keys_mapDelete {m : Registry} {k a : Option String}
    (h : a ∈ keys (mapDelete m k)) : a ∈ keys m := by
  induction m with
  | nil => simpa [mapDelete] using h
  | cons kv rest ih =>
    obtain ⟨k0, d⟩ := kv
    by_cases hk : k0 = k
    · rw [mapDelete, if_pos hk] at h
      simp [keys]
      right; exact h
    · rw [mapDelete, if_neg hk, keys] at h
      simp [keys] at h ⊢
      rcases h with h | h
      · left; exact h
      · right; exact ih h

/-- `mapDelete` preserves key uniqueness. -/
theorem nodup_mapDelete {m : Registry} {k : Option String}
    (h : (keys m).Nodup) : (keys (mapDelete m k)).Nodup := by
  induction m with
  | nil => exact h
  | cons kv rest ih =>
    obtain ⟨k0, d⟩ := kv
    rw [keys, List.nodup_cons] at h
    by_cases hk : k0 = k
    · rw [mapDelete, if_pos hk]; exact h.2
    · rw [mapDelete, if_neg hk, keys, List.nodup_cons]
      exact ⟨fun hmem => h.1 (mem_keys_mapDelete hmem), ih h.2⟩

/-- Looking up the key just written returns the written entry. -/
theorem mapGetK_mapSet_self (m : Registry) (k : Option String) (v : Device) :
    mapGetK (mapSet m k v) k = some v := by
  induction m with
  | nil => simp [mapSet, mapGetK]
  | cons kv rest ih =>
    obtain ⟨k0, d⟩ := kv
    by_cases hk : k0 = k
    · simp [mapSet, hk, mapGetK]
    · simp [mapSet, hk, mapGetK, ih]

/-- Looking up a different key is unaffected by `mapSet`. -/
theorem mapGetK_mapSet_other {m : Registry} {k k' : Option String} {v : Device}
    (h : k' ≠ k) : mapGetK (mapSet m k v) k' = mapGetK m k' := by
  have hne : k ≠ k' := fun he => h he.symm
  induction m with
  | nil => simp [mapSet, mapGetK, hne]
  | cons kv rest ih =>
    obtain ⟨k0, d⟩ := kv
    by_cases hk : k0 = k
    · subst hk
      rw [mapSet, if_pos rfl, mapGetK, mapGetK, if_neg hne, if_neg hne]
    · rw [mapSet, if_neg hk, mapGetK, mapGetK, ih]

/-- A key that does not occur looks up to nothing. -/
theorem mapGetK_eq_none_of_not_mem {m : Registry} {k : Option String}
    (h : k ∉ keys m) : mapGetK m k = none := by
  induction m with
  | nil => simp [mapGetK]
  | cons kv rest ih =>
    obtain ⟨k0, d⟩ := kv
    simp [keys] at h
    rw [mapGetK, if_neg (fun he => h.1 he.symm), ih h.2]

/-- Deleting a key removes it from the registry (under key uniqueness). -/
theorem mapGetK_mapDelete_self {m : Registry} {k : Option String}
    (h : (keys m).Nodup) : mapGetK (mapDelete m k) k = none := by
  induction m with
  | nil => simp [mapDelete, mapGetK]
  | cons kv rest ih =>
    obtain ⟨k0, d⟩ := kv
    rw [keys, List.nodup_cons] at h
    by_cases hk : k0 = k
    · rw [mapDelete, if_pos hk]
      exact mapGetK_eq_none_of_not_mem (fun hm => h.1 (hk ▸ hm))
    · rw [mapDelete, if_neg hk, mapGetK, if_neg hk, ih h.2]

/-- A key that does not occur is counted zero times. -/
theorem countKey_eq_zero_of_not_mem {m : Registry} {k : Option String}
    (h : k ∉ keys m) : countKey m k = 0 := by
  induction m with
  | nil => rfl
  | cons kv rest ih =>
    obtain ⟨k0, d⟩ := kv
    simp [keys] at h
    rw [countKey, if_neg (fun he => h.1 he.symm), ih h.2]

/-- After `mapSet` on a registry with unique keys, the written key is held by
exactly one entry. -/
theorem countKey_mapSet_self {m : Registry} {k : Option String} {v : Device}
    (h : (keys m).Nodup) : countKey (mapSet m k v) k = 1 := by
  induction m with
  | nil => simp [mapSet, countKey]
  | cons kv rest ih =>
    obtain ⟨k0, d⟩ := kv
    rw [keys, List.nodup_cons] at h
    by_cases hk : k0 = k
    · subst hk
      rw [mapSet, if_pos rfl, countKey, if_pos rfl,
        countKey_eq_zero_of_not_mem h.1]
    · rw [mapSet, if_neg hk, countKey, if_neg hk, ih h.2]

/-- An emit addressed to one socket is delivered only to that socket. -/
theorem deliversTo_toSocket {conns : List String} {sid ev r : String} {p : OutPayload}
    (h : Emit.deliversTo conns { tgt := .toSocket sid, event := ev, payload := p } r = true) :
    r = sid := by
  simp [Emit.deliversTo] at h
  exact h.2

/-- A broadcast-except emit reaches every other connected socket. -/
theorem deliversTo_broadcastExcept {conns : List String} {sid ev r : String} {p : OutPayload}
    (h1 : r ∈ conns) (h2 : r ≠ sid) :
    Emit.deliversTo conns { tgt := .broadcastExcept sid, event := ev, payload := p } r = true := by
  simp [Emit.deliversTo, h1, h2]

/-- An `io.emit` broadcast reaches every connected socket, the sender
included. -/
theorem deliversTo_all {conns : List String} {ev r : String} {p : OutPayload}
    (h : r ∈ conns) :
    Emit.deliversTo conns { tgt := .all, event := ev, payload := p } r = true := by
  simp [Emit.deliversTo, h]

/-- C1, counterexample.  Device `D` registers over connection `C1`, reconnects
over `C2` (the registry then maps `D` to `C2`), and then the disconnect for
the stale connection `C1` is delivered: the source deletes by `deviceId`
unconditionally, so the fresh entry `D -> C2` is evicted and the registry no
longer contains `D` at all — the claimed conditional eviction does not hold. -/
theorem c1_counterexample :
    (mapGetK ((handleConnection ((handleConnection [] "C1" 0
        { type := some "device", deviceId := some "D", name := some "Phone" }).1)
        "C2" 1 { type := some "device", deviceId := some "D", name := some "Phone" }).1)
      (some "D") =
      some { socketId := "C2", name := "Phone", connectedAt := 1, lastSeen := none })
    ∧ mapGetK ((handleDeviceDisconnect ((handleConnection ((handleConnection [] "C1" 0
        { type := some "device", deviceId := some "D", name := some "Phone" }).1)
        "C2" 1 { type := some "device", deviceId := some "D", name := some "Phone" }).1)
        "C1" (some "D")).1) (some "D") = none :=
  ⟨rfl, rfl⟩

/-- C1, amended.  Eviction on disconnect is unconditional: after device `d`
registers over connection `c1` and re-registers over `c2`, delivering the
disconnect notification of `c1` removes the registry entry of `d` entirely
(instead of being a no-op), so the registry no longer contains `d -> c2`. -/
theorem c1_theorem (reg : Registry) (hn : (keys reg).Nodup)
    (d c1 c2 : String) (t1 t2 : Int) (n1 n2 : Option String) :
    mapGetK ((handleDeviceDisconnect ((handleConnection ((handleConnection reg c1 t1
        { type := some "device", deviceId := some d, name := n1 }).1)
        c2 t2 { type := some "device", deviceId := some d, name := n2 }).1)
        c1 (some d)).1) (some d) = none := by
  exact mapGetK_mapDelete_self (nodup_mapSet (nodup_mapSet hn))

/-- C1, witness for the amended theorem at a concrete trace. -/
theorem c1_witness :
    (keys ([] : Registry)).Nodup ∧
    mapGetK ((handleDeviceDisconnect ((handleConnection ((handleConnection ([] : Registry)
        "s1" 0 { type := some "device", deviceId := some "dev7", name := none }).1)
        "s2" 3 { type := some "device", deviceId := some "dev7", name := none }).1)
        "s1" (some "dev7")).1) (some "dev7") = none :=
  ⟨List.nodup_nil, c1_theorem [] List.nodup_nil "dev7" "s1" "s2" 0 3 none none⟩

/-- C2, counterexample.  A non-JSON string sent as `webrtc_offer` payload
makes the handler throw: the `JSON.parse` call there is not wrapped in a
try/catch, so the parse failure is not caught, contradicting the claim for
the `webrtc_offer` member of the WebRTC event set. -/
theorem c2_counterexample :
    handleEvent [] "s1" 0 (.webrtc_offer (.str "@@not-json@@")) = .error () := rfl

/-- C2, amended.  For `webrtc_ice_candidate` the parse failure of a string
payload is caught and the raw string is broadcast to every connection except
the sender; `webrtc_answer` never parses and likewise broadcasts the raw
payload; but `webrtc_offer` does not catch the failure and throws. -/
theorem c2_theorem (reg : Registry) (sender : String) (now : Int) (s : String)
    (h : jsonParse s = none) :
    handleEvent reg sender now (.webrtc_ice_candidate (.str s)) =
      .ok (reg, [{ tgt := .broadcastExcept sender, event := "webrtc_ice_candidate",
                   payload := .raw (.str s) }])
    ∧ handleEvent reg sender now (.webrtc_answer (.str s)) =
      .ok (reg, [{ tgt := .broadcastExcept sender, event := "webrtc_answer",
                   payload := .raw (.str s) }])
    ∧ handleEvent reg sender now (.webrtc_offer (.str s)) = .error () := by
  refine ⟨?_, rfl, ?_⟩
  · simp [handleEvent, h, jsMember, getField, JVal.truthy]
  · simp [handleEvent, h]

/-- C2, witness at a concrete non-JSON string. -/
theorem c2_witness :
    jsonParse "###" = none ∧
    handleEvent [] "s9" 5 (.webrtc_ice_candidate (.str "###")) =
      .ok ([], [{ tgt := .broadcastExcept "s9", event := "webrtc_ice_candidate",
                  payload := .raw (.str "###") }]) :=
  ⟨rfl, (c2_theorem [] "s9" 5 "###" rfl).1⟩

/-- The command events named by the routing-table claim (besides
`update_config`, which carries its target inside its payload). -/
def claimCmds : List Cmd :=
  [.get_status, .start_monitoring, .stop_monitoring, .start_video, .stop_video,
   .switch_camera, .toggle_flash, .brightness_up, .brightness_down,
   .get_config, .get_storage_stats, .hide_app, .show_app,
   .START_MANUAL_RECORDING, .STOP_MANUAL_RECORDING]

/-- The members of `claimCmds` whose handler has the broadcast fallback. -/
def fallbackClaimCmds : List Cmd :=
  [.get_status, .start_monitoring, .stop_monitoring, .start_video, .stop_video,
   .switch_camera, .toggle_flash, .brightness_up, .brightness_down]

/-- The members of `claimCmds` whose handler silently drops an untargeted
event. -/
def silentClaimCmds : List Cmd :=
  [.get_config, .get_storage_stats, .hide_app, .show_app,
   .START_MANUAL_RECORDING, .STOP_MANUAL_RECORDING]

/-- C3, counterexample.  `hide_app` is in the claimed targeted-if-present set,
but its handler has no broadcast fallback: with no target id supplied it emits
nothing at all, so no `HIDE_APP` reaches the other connections. -/
theorem c3_counterexample :
    Cmd.hide_app ∈ claimCmds ∧
    handleEvent [] "s1" 0 (.cmd .hide_app .undefined) = .ok ([], []) :=
  ⟨by decide, rfl⟩

/-- C3, amended.  For every command in the claimed set, a supplied and
registered target id yields exactly the renamed command event on the target
device connection only; with no target id supplied, the nine commands
`get_status` through `brightness_down` (and `update_config`) fall back to a
broadcast to every connection except the sender, while `get_config`,
`get_storage_stats`, `hide_app`, `show_app` and the manual-recording pair
emit nothing. -/
theorem c3_theorem :
    (∀ c ∈ claimCmds, ∀ (reg : Registry) (sender : String) (now : Int) (t : String) (d : Device),
      t ≠ "" → mapGetJ reg (.str t) = some d → d.socketId ≠ "" →
      handleEvent reg sender now (.cmd c (.str t)) =
        .ok (reg, [{ tgt := .toSocket d.socketId, event := cmdName c, payload := .raw .null }]))
    ∧ (∀ c ∈ fallbackClaimCmds, ∀ (reg : Registry) (sender : String) (now : Int),
      handleEvent reg sender now (.cmd c .undefined) =
        .ok (reg, [{ tgt := .broadcastExcept sender, event := cmdName c, payload := .raw .undefined }]))
    ∧ (∀ c ∈ silentClaimCmds, ∀ (reg : Registry) (sender : String) (now : Int),
      handleEvent reg sender now (.cmd c .undefined) = .ok (reg, []))
    ∧ (∀ (reg : Registry) (sender : String) (now : Int) (fields : List (String × JVal))
        (t : String) (d : Device),
      getField (.obj fields) "targetId" = .str t → t ≠ "" →
      mapGetJ reg (.str t) = some d → d.socketId ≠ "" →
      handleEvent reg sender now (.update_config (.obj fields)) =
        .ok (reg, [{ tgt := .toSocket d.socketId, event := "UPDATE_CONFIG",
                     payload := .raw (getField (.obj fields) "config") }]))
    ∧ (∀ (reg : Registry) (sender : String) (now : Int) (fields : List (String × JVal)),
      getField (.obj fields) "targetId" = .undefined →
      handleEvent reg sender now (.update_config (.obj fields)) =
        .ok (reg, [{ tgt := .broadcastExcept sender, event := "UPDATE_CONFIG",
                     payload := .raw (.obj fields) }]))
    ∧ (∀ (conns : List String) (sid ev : String) (p : OutPayload) (r : String),
      Emit.deliversTo conns { tgt := .toSocket sid, event := ev, payload := p } r = true →
      r = sid) := by
  refine ⟨?_, ?_, ?_, ?_, ?_, ?_⟩
  · intro c _ reg sender now t d ht hm hs
    simp [handleEvent, JVal.truthy, sendToDevice, hm, ht, hs]
  · intro c hc reg sender now
    fin_cases hc <;> rfl
  · intro c hc reg sender now
    fin_cases hc <;> rfl
  · intro reg sender now fields t d hf ht hm hs
    simp [handleEvent, jsMember, hf, JVal.truthy, ht, sendToDevice, hm, hs]
  · intro reg sender now fields hf
    simp [handleEvent, jsMember, hf, JVal.truthy]
  · intro conns sid ev p r h
    exact deliversTo_toSocket h

/-- C3, witness: a targeted `get_status` on a registered device, and an
untargeted `start_monitoring` falling back to a broadcast. -/
theorem c3_witness :
    (Cmd.get_status ∈ claimCmds ∧ "d1" ≠ "" ∧
      mapGetJ [(some "d1", { socketId := "sx", name := "N", connectedAt := 0, lastSeen := none })]
        (.str "d1") =
        some { socketId := "sx", name := "N", connectedAt := 0, lastSeen := none } ∧
      ("sx" : String) ≠ "") ∧
    handleEvent [(some "d1", { socketId := "sx", name := "N", connectedAt := 0, lastSeen := none })]
        "s1" 0 (.cmd .get_status (.str "d1")) =
      .ok ([(some "d1", { socketId := "sx", name := "N", connectedAt := 0, lastSeen := none })],
        [{ tgt := .toSocket "sx", event := "GET_STATUS", payload := .raw .null }]) ∧
    (Cmd.start_monitoring ∈ fallbackClaimCmds ∧
      handleEvent [] "s1" 0 (.cmd .start_monitoring .undefined) =
        .ok ([], [{ tgt := .broadcastExcept "s1", event := "START_AUDIO", payload := .raw .undefined }])) :=
  ⟨⟨by decide, by decide, rfl, by decide⟩,
   c3_theorem.1 .get_status (by decide)
     [(some "d1", { socketId := "sx", name := "N", connectedAt := 0, lastSeen := none })]
     "s1" 0 "d1" { socketId := "sx", name := "N", connectedAt := 0, lastSeen := none }
     (by decide) rfl (by decide),
   by decide,
   c3_theorem.2.1 .start_monitoring (by decide) [] "s1" 0⟩

/-- C4, counterexample.  A device registered under the deviceId `""` (an
empty `deviceId` query parameter) is a registered device, yet its
`audio_stream` produces no emit at all: the reverse lookup yields the falsy
id `""`, so the handler skips the broadcast, contradicting the claim for that
sender. -/
theorem c4_counterexample :
    getDeviceIdBySocketId
        [(some "", { socketId := "s1", name := "N", connectedAt := 0, lastSeen := none })] "s1" =
      some (some "") ∧
    handleEvent [(some "", { socketId := "s1", name := "N", connectedAt := 0, lastSeen := none })]
        "s1" 0 (.audio_stream (.str "blob")) =
      .ok ([(some "", { socketId := "s1", name := "N", connectedAt := 0, lastSeen := none })], []) :=
  ⟨rfl, rfl⟩

/-- C4, amended.  For every connection whose reverse lookup yields a truthy
registered deviceId, `audio_stream` (resp. `video_frame`) produces one
`audio_data` (resp. `video_data`) event to everyone — the sender included —
wrapped as the object with the deviceId of the sender and the original
payload as data; a sender with no, or a falsy, registered deviceId triggers
nothing. -/
theorem c4_theorem (reg : Registry) (sender : String) (now : Int) (data : JVal) (s : String)
    (h : getDeviceIdBySocketId reg sender = some (some s)) (hs : s ≠ "") :
    handleEvent reg sender now (.audio_stream data) =
      .ok (reg, [{ tgt := .all, event := "audio_data",
                   payload := .raw (.obj [("deviceId", .str s), ("data", data)]) }])
    ∧ handleEvent reg sender now (.video_frame data) =
      .ok (reg, [{ tgt := .all, event := "video_data",
                   payload := .raw (.obj [("deviceId", .str s), ("data", data)]) }])
    ∧ (∀ (conns : List String) (r : String), r ∈ conns →
        Emit.deliversTo conns
          { tgt := .all, event := "audio_data",
            payload := .raw (.obj [("deviceId", .str s), ("data", data)]) } r = true) := by
  refine ⟨?_, ?_, ?_⟩
  · simp [handleEvent, h, hs]
  · simp [handleEvent, h, hs]
  · intro conns r hr
    exact deliversTo_all hr

/-- C4, witness at a registered device sender. -/
theorem c4_witness :
    (getDeviceIdBySocketId
        [(some "d2", { socketId := "s3", name := "N", connectedAt := 1, lastSeen := none })] "s3" =
      some (some "d2") ∧ "d2" ≠ "") ∧
    handleEvent [(some "d2", { socketId := "s3", name := "N", connectedAt := 1, lastSeen := none })]
        "s3" 4 (.audio_stream (.num 9)) =
      .ok ([(some "d2", { socketId := "s3", name := "N", connectedAt := 1, lastSeen := none })],
        [{ tgt := .all, event := "audio_data",
           payload := .raw (.obj [("deviceId", .str "d2"), ("data", .num 9)]) }]) :=
  ⟨⟨rfl, by decide⟩,
   (c4_theorem [(some "d2", { socketId := "s3", name := "N", connectedAt := 1, lastSeen := none })]
      "s3" 4 (.num 9) "d2" rfl (by decide)).1⟩

/-- One connection-lifecycle step preserves key uniqueness of the registry. -/
theorem nodup_applyConn {reg : Registry} (e : ConnEvent) (h : (keys reg).Nodup) :
    (keys (applyConn reg e)).Nodup := by
  cases e with
  | connect sock now q =>
    by_cases hq : q.type = some "device"
    · simp only [applyConn, handleConnection, hq, if_pos]
      exact nodup_mapSet h
    · simp only [applyConn, handleConnection, hq, if_neg, if_false]
      exact h
  | disconnectDevice sock id =>
    exact nodup_mapDelete h

/-- A whole trace of connection-lifecycle steps preserves key uniqueness. -/
theorem nodup_applyTrace (tr : List ConnEvent) :
    ∀ reg : Registry, (keys reg).Nodup → (keys (applyTrace reg tr)).Nodup := by
  induction tr with
  | nil => exact fun reg h => h
  | cons e rest ih => exact fun reg h => ih _ (nodup_applyConn e h)

/-- C5.  Registry uniqueness: after any sequence of register (device connect)
and unregister (device-branch disconnect) operations from the empty registry,
the keys are pairwise distinct — at most one entry per deviceId — and
immediately after a device registration the registry holds exactly one entry
for that deviceId, referring to the registering connection. -/
theorem c5_theorem :
    (∀ tr : List ConnEvent, (keys (applyTrace [] tr)).Nodup)
    ∧ (∀ (tr : List ConnEvent) (sock : String) (now : Int) (q : Query),
        q.type = some "device" →
        mapGetK (handleConnection (applyTrace [] tr) sock now q).1 q.deviceId =
          some { socketId := sock, name := resolveName q.name, connectedAt := now,
                 lastSeen := none }
        ∧ countKey (handleConnection (applyTrace [] tr) sock now q).1 q.deviceId = 1) := by
  have hnd : ∀ tr : List ConnEvent, (keys (applyTrace [] tr)).Nodup :=
    fun tr => nodup_applyTrace tr [] List.nodup_nil
  refine ⟨hnd, ?_⟩
  intro tr sock now q hq
  simp only [handleConnection, hq, if_pos]
  exact ⟨mapGetK_mapSet_self _ _ _, countKey_mapSet_self (hnd tr)⟩

/-- C5, witness: a concrete trace (register, stale re-register, unregister)
and a registration on top of it. -/
theorem c5_witness :
    (keys (applyTrace [] [ConnEvent.connect "a" 0 { type := some "device", deviceId := some "x", name := none },
      ConnEvent.connect "b" 1 { type := some "device", deviceId := some "x", name := none },
      ConnEvent.disconnectDevice "a" (some "x")])).Nodup
    ∧ ((Query.mk (some "device") (some "y") (some "Tab")).type = some "device"
    ∧ mapGetK (handleConnection (applyTrace [] []) "c" 2
        { type := some "device", deviceId := some "y", name := some "Tab" }).1 (some "y") =
        some { socketId := "c", name := "Tab", connectedAt := 2, lastSeen := none }
    ∧ countKey (handleConnection (applyTrace [] []) "c" 2
        { type := some "device", deviceId := some "y", name := some "Tab" }).1 (some "y") = 1) :=
  ⟨c5_theorem.1 _, rfl,
   (c5_theorem.2 [] "c" 2 { type := some "device", deviceId := some "y", name := some "Tab" } rfl).1,
   (c5_theorem.2 [] "c" 2 { type := some "device", deviceId := some "y", name := some "Tab" } rfl).2⟩

/-- C6.  Roster broadcast contract: a device registration performs exactly one
`device_list_update` emit, broadcast from the registering socket to every
other connection (hence to every non-device connection) and carrying the full
new snapshot containing the new device; a device-branch disconnect performs
exactly one such broadcast whose snapshot no longer contains the device; and
a newly-connected controller receives exactly one `device_list_update` with
the current snapshot, addressed only to it. -/
theorem c6_theorem :
    (∀ (reg : Registry) (sock : String) (now : Int) (q : Query), q.type = some "device" →
      (handleConnection reg sock now q).2 =
        [{ tgt := .broadcastExcept sock, event := "device_list_update",
           payload := .roster (handleConnection reg sock now q).1 }]
      ∧ mapGetK (handleConnection reg sock now q).1 q.deviceId =
          some { socketId := sock, name := resolveName q.name, connectedAt := now,
                 lastSeen := none }
      ∧ (∀ (conns : List String) (r : String), r ∈ conns → r ≠ sock →
          Emit.deliversTo conns
            { tgt := .broadcastExcept sock, event := "device_list_update",
              payload := .roster (handleConnection reg sock now q).1 } r = true))
    ∧ (∀ (reg : Registry) (sock : String) (id : Option String), (keys reg).Nodup →
      (handleDeviceDisconnect reg sock id).2 =
        [{ tgt := .broadcastExcept sock, event := "device_list_update",
           payload := .roster (handleDeviceDisconnect reg sock id).1 }]
      ∧ mapGetK (handleDeviceDisconnect reg sock id).1 id = none
      ∧ (∀ (conns : List String) (r : String), r ∈ conns → r ≠ sock →
          Emit.deliversTo conns
            { tgt := .broadcastExcept sock, event := "device_list_update",
              payload := .roster (handleDeviceDisconnect reg sock id).1 } r = true))
    ∧ (∀ (reg : Registry) (sock : String) (now : Int) (q : Query), q.type ≠ some "device" →
      handleConnection reg sock now q =
        (reg, [{ tgt := .toSocket sock, event := "device_list_update", payload := .roster reg }])
      ∧ (∀ (conns : List String) (r : String),
          Emit.deliversTo conns
            { tgt := .toSocket sock, event := "device_list_update",
              payload := .roster reg } r = true → r = sock)) := by
  refine ⟨?_, ?_, ?_⟩
  · intro reg sock now q hq
    refine ⟨by simp [handleConnection, hq], ?_, ?_⟩
    · simp only [handleConnection, hq, if_pos]
      exact mapGetK_mapSet_self _ _ _
    · intro conns r hr hne
      exact deliversTo_broadcastExcept hr hne
  · intro reg sock id hn
    refine ⟨rfl, ?_, ?_⟩
    · exact mapGetK_mapDelete_self hn
    · intro conns r hr hne
      exact deliversTo_broadcastExcept hr hne
  · intro reg sock now q hq
    refine ⟨by simp [handleConnection, hq], ?_⟩
    intro conns r h
    exact deliversTo_toSocket h

/-- C6, witness: a device registration delivered to another connection, a
disconnect with the device absent afterwards, and a controller connect
addressed only to itself. -/
theorem c6_witness :
    ((handleConnection [] "s1" 0 { type := some "device", deviceId := some "d", name := none }).2 =
      [{ tgt := .broadcastExcept "s1", event := "device_list_update",
         payload := .roster (handleConnection [] "s1" 0
           { type := some "device", deviceId := some "d", name := none }).1 }]
    ∧ Emit.deliversTo ["s1", "adm"]
        { tgt := .broadcastExcept "s1", event := "device_list_update",
          payload := .roster (handleConnection [] "s1" 0
            { type := some "device", deviceId := some "d", name := none }).1 } "adm" = true)
    ∧ mapGetK (handleDeviceDisconnect
        [(some "d", { socketId := "s1", name := "Unknown Device", connectedAt := 0, lastSeen := none })]
        "s1" (some "d")).1 (some "d") = none
    ∧ handleConnection [] "adm" 3 { type := none, deviceId := none, name := none } =
      ([], [{ tgt := .toSocket "adm", event := "device_list_update", payload := .roster [] }]) :=
  ⟨⟨(c6_theorem.1 [] "s1" 0 { type := some "device", deviceId := some "d", name := none } rfl).1,
    (c6_theorem.1 [] "s1" 0 { type := some "device", deviceId := some "d", name := none } rfl).2.2
      ["s1", "adm"] "adm" (by decide) (by decide)⟩,
   (c6_theorem.2.1
      [(some "d", { socketId := "s1", name := "Unknown Device", connectedAt := 0, lastSeen := none })]
      "s1" (some "d") (by simp [keys])).2.1,
   (c6_theorem.2.2 [] "adm" 3 { type := none, deviceId := none, name := none } (by decide)).1⟩

/-- C7, counterexample.  A device registered under the deviceId `""` is a
registered device (its entry is present and holds the sender socket), yet a
heartbeat from it leaves the registry — in particular `lastSeen`, still
absent — unchanged, because the handler requires the reverse-looked-up id to
be truthy; this falsifies the claimed if-and-only-if. -/
theorem c7_counterexample :
    ((some "", { socketId := "s1", name := "N", connectedAt := 0, lastSeen := none }) ∈
      ([(some "", { socketId := "s1", name := "N", connectedAt := 0, lastSeen := none })] : Registry))
    ∧ handleEvent [(some "", { socketId := "s1", name := "N", connectedAt := 0, lastSeen := none })]
        "s1" 7 (.heartbeat 2) =
      .ok ([(some "", { socketId := "s1", name := "N", connectedAt := 0, lastSeen := none })],
        [pongEmit "s1" 7 2]) :=
  ⟨List.mem_singleton.mpr rfl, rfl⟩

/-- C7, amended.  A heartbeat always produces exactly one `pong_response`,
addressed to the sender only, with serverTime `now`, clientTime the sent
timestamp and latency their difference; the registry entry of the sender
gains `lastSeen = now` — all other fields and all other entries unchanged —
exactly when the reverse lookup of the sender yields a truthy deviceId, and
the registry is untouched when the lookup fails or yields a falsy id. -/
theorem c7_theorem (reg : Registry) (sender : String) (now timestamp : Int) :
    (∀ (reg' : Registry) (es : List Emit),
      handleEvent reg sender now (.heartbeat timestamp) = .ok (reg', es) →
      es = [pongEmit sender now timestamp])
    ∧ (getDeviceIdBySocketId reg sender = none →
        handleEvent reg sender now (.heartbeat timestamp) =
          .ok (reg, [pongEmit sender now timestamp]))
    ∧ (getDeviceIdBySocketId reg sender = some none →
        handleEvent reg sender now (.heartbeat timestamp) =
          .ok (reg, [pongEmit sender now timestamp]))
    ∧ (getDeviceIdBySocketId reg sender = some (some "") →
        handleEvent reg sender now (.heartbeat timestamp) =
          .ok (reg, [pongEmit sender now timestamp]))
    ∧ (∀ (s : String) (d : Device),
        getDeviceIdBySocketId reg sender = some (some s) → s ≠ "" →
        mapGetK reg (some s) = some d →
        handleEvent reg sender now (.heartbeat timestamp) =
          .ok (mapSet reg (some s)
            { socketId := d.socketId, name := d.name, connectedAt := d.connectedAt,
              lastSeen := some now }, [pongEmit sender now timestamp])
        ∧ mapGetK (mapSet reg (some s)
            { socketId := d.socketId, name := d.name, connectedAt := d.connectedAt,
              lastSeen := some now }) (some s) =
            some { socketId := d.socketId, name := d.name, connectedAt := d.connectedAt,
                   lastSeen := some now }
        ∧ (∀ k' : Option String, k' ≠ some s →
            mapGetK (mapSet reg (some s)
              { socketId := d.socketId, name := d.name, connectedAt := d.connectedAt,
                lastSeen := some now }) k' = mapGetK reg k'))
    ∧ (∀ (conns : List String) (r : String),
        Emit.deliversTo conns (pongEmit sender now timestamp) r = true → r = sender) := by
  refine ⟨?_, ?_, ?_, ?_, ?_, ?_⟩
  · intro reg' es h
    simp only [handleEvent, Except.ok.injEq, Prod.mk.injEq] at h
    exact h.2.symm
  · intro h
    simp [handleEvent, heartbeatReg, h]
  · intro h
    simp [handleEvent, heartbeatReg, h]
  · intro h
    simp [handleEvent, heartbeatReg, h]
  · intro s d h hs hd
    refine ⟨by simp [handleEvent, heartbeatReg, h, hs, hd], mapGetK_mapSet_self _ _ _, ?_⟩
    intro k' hk
    exact mapGetK_mapSet_other hk
  · intro conns r h
    exact deliversTo_toSocket (by simpa [pongEmit] using h)

/-- C7, witness at a registered device with a truthy id. -/
theorem c7_witness :
    (getDeviceIdBySocketId
        [(some "d5", { socketId := "s4", name := "N", connectedAt := 2, lastSeen := none })] "s4" =
      some (some "d5") ∧ "d5" ≠ "" ∧
      mapGetK [(some "d5", { socketId := "s4", name := "N", connectedAt := 2, lastSeen := none })]
        (some "d5") = some { socketId := "s4", name := "N", connectedAt := 2, lastSeen := none }) ∧
    handleEvent [(some "d5", { socketId := "s4", name := "N", connectedAt := 2, lastSeen := none })]
        "s4" 10 (.heartbeat 4) =
      .ok (mapSet [(some "d5", { socketId := "s4", name := "N", connectedAt := 2, lastSeen := none })]
        (some "d5") { socketId := "s4", name := "N", connectedAt := 2, lastSeen := some 10 },
        [pongEmit "s4" 10 4]) :=
  ⟨⟨rfl, by decide, rfl⟩,
   ((c7_theorem [(some "d5", { socketId := "s4", name := "N", connectedAt := 2, lastSeen := none })]
      "s4" 10 4).2.2.2.2.1 "d5"
      { socketId := "s4", name := "N", connectedAt := 2, lastSeen := none }
      rfl (by decide) rfl).1⟩

/-- C8.  Unknown unicast target: when the supplied target id is truthy but has
no registry entry, every targeted event — each command, a targeted
`update_config` or `update_video_quality`, and targeted WebRTC offer and ICE
payloads — completes without error, emits nothing to any connection, and
leaves the registry unchanged. -/
theorem c8_theorem (reg : Registry) (sender : String) (now : Int) (t : String)
    (ht : t ≠ "") (h : mapGetJ reg (.str t) = none) :
    (∀ c : Cmd, handleEvent reg sender now (.cmd c (.str t)) = .ok (reg, []))
    ∧ (∀ cfg : JVal, handleEvent reg sender now
        (.update_config (.obj [("targetId", .str t), ("config", cfg)])) = .ok (reg, []))
    ∧ handleEvent reg sender now
        (.update_video_quality (.obj [("targetId", .str t), ("quality", .str "high")])) =
        .ok (reg, [])
    ∧ (∀ off : JVal, handleEvent reg sender now
        (.webrtc_offer (.obj [("targetId", .str t), ("offer", off)])) = .ok (reg, []))
    ∧ (∀ cand : JVal, handleEvent reg sender now
        (.webrtc_ice_candidate (.obj [("targetId", .str t), ("candidate", cand)])) =
        .ok (reg, [])) := by
  refine ⟨?_, ?_, ?_, ?_, ?_⟩
  · intro c
    simp [handleEvent, JVal.truthy, ht, sendToDevice, h]
  · intro cfg
    simp [handleEvent, jsMember, getField, JVal.truthy, ht, sendToDevice, h]
  · simp [handleEvent, jsMember, getField, JVal.truthy, ht, sendToDevice, h]
  · intro off
    simp [handleEvent, jsMember, getField, JVal.truthy, ht, sendToDevice, h]
  · intro cand
    simp [handleEvent, jsMember, getField, JVal.truthy, ht, sendToDevice, h]

/-- C8, witness at a target id absent from an empty registry. -/
theorem c8_witness :
    ("ghost" ≠ "" ∧ mapGetJ [] (.str "ghost") = none) ∧
    handleEvent [] "s1" 0 (.cmd .get_status (.str "ghost")) = .ok ([], []) ∧
    handleEvent [] "s1" 0
      (.webrtc_ice_candidate (.obj [("targetId", .str "ghost"), ("candidate", .null)])) =
      .ok ([], []) :=
  ⟨⟨by decide, rfl⟩,
   (c8_theorem [] "s1" 0 "ghost" (by decide) rfl).1 .get_status,
   (c8_theorem [] "s1" 0 "ghost" (by decide) rfl).2.2.2.2 .null⟩

/-- C9.  A device connection presenting no deviceId is still registered: the
entry is created under the absent (`undefined`) key, and a second such
connection silently overwrites it — afterwards exactly one entry lives under
the absent key and it refers to the second connection. -/
theorem c9_theorem (reg : Registry) (hn : (keys reg).Nodup) (s1 s2 : String)
    (t1 t2 : Int) (n1 n2 : Option String) :
    mapGetK (handleConnection reg s1 t1
        { type := some "device", deviceId := none, name := n1 }).1 none =
      some { socketId := s1, name := resolveName n1, connectedAt := t1, lastSeen := none }
    ∧ mapGetK (handleConnection (handleConnection reg s1 t1
        { type := some "device", deviceId := none, name := n1 }).1 s2 t2
        { type := some "device", deviceId := none, name := n2 }).1 none =
      some { socketId := s2, name := resolveName n2, connectedAt := t2, lastSeen := none }
    ∧ countKey (handleConnection (handleConnection reg s1 t1
        { type := some "device", deviceId := none, name := n1 }).1 s2 t2
        { type := some "device", deviceId := none, name := n2 }).1 none = 1 :=
  ⟨mapGetK_mapSet_self _ _ _, mapGetK_mapSet_self _ _ _,
   countKey_mapSet_self (nodup_mapSet hn)⟩

/-- C9, witness: two id-less device connections from the empty registry. -/
theorem c9_witness :
    (keys ([] : Registry)).Nodup ∧
    mapGetK (handleConnection (handleConnection ([] : Registry) "s1" 0
        { type := some "device", deviceId := none, name := none }).1 "s2" 1
        { type := some "device", deviceId := none, name := none }).1 none =
      some { socketId := "s2", name := "Unknown Device", connectedAt := 1, lastSeen := none } ∧
    countKey (handleConnection (handleConnection ([] : Registry) "s1" 0
        { type := some "device", deviceId := none, name := none }).1 "s2" 1
        { type := some "device", deviceId := none, name := none }).1 none = 1 :=
  ⟨List.nodup_nil,
   (c9_theorem [] List.nodup_nil "s1" "s2" 0 1 none none).2.1,
   (c9_theorem [] List.nodup_nil "s1" "s2" 0 1 none none).2.2⟩

/-- C10.  Registry frame property: handling any routed event other than the
heartbeat (connection and disconnection are separate notifications, not
routed events) that completes without throwing leaves the device registry
exactly as it was — same keys, same entries, every field included. -/
theorem c10_theorem (reg : Registry) (sender : String) (now : Int) (e : InEvent)
    (h : e.isHeartbeat = false) :
    ∀ (reg' : Registry) (es : List Emit),
      handleEvent reg sender now e = .ok (reg', es) → reg' = reg := by
  intro reg' es h2
  cases e with
  | heartbeat t => simp [InEvent.isHeartbeat] at h
  | cmd c tid =>
    simp only [handleEvent, Except.ok.injEq, Prod.mk.injEq] at h2
    exact h2.1.symm
  | update_config data =>
    simp only [handleEvent] at h2
    split at h2
    · exact Except.noConfusion h2
    · simp only [Except.ok.injEq, Prod.mk.injEq] at h2
      exact h2.1.symm
  | update_video_quality data =>
    simp only [handleEvent] at h2
    split at h2
    · exact Except.noConfusion h2
    · split at h2
      · exact Except.noConfusion h2
      · simp only [Except.ok.injEq, Prod.mk.injEq] at h2
        exact h2.1.symm
  | audio_stream data =>
    simp only [handleEvent, Except.ok.injEq, Prod.mk.injEq] at h2
    exact h2.1.symm
  | video_frame data =>
    simp only [handleEvent, Except.ok.injEq, Prod.mk.injEq] at h2
    exact h2.1.symm
  | status_update status =>
    simp only [handleEvent, Except.ok.injEq, Prod.mk.injEq] at h2
    exact h2.1.symm
  | camera_ready deviceId =>
    simp only [handleEvent, Except.ok.injEq, Prod.mk.injEq] at h2
    exact h2.1.symm
  | camera_status data =>
    simp only [handleEvent] at h2
    split at h2
    · exact Except.noConfusion h2
    · simp only [Except.ok.injEq, Prod.mk.injEq] at h2
      exact h2.1.symm
  | permission_report data =>
    simp only [handleEvent, Except.ok.injEq, Prod.mk.injEq] at h2
    exact h2.1.symm
  | current_config config =>
    simp only [handleEvent, Except.ok.injEq, Prod.mk.injEq] at h2
    exact h2.1.symm
  | storage_stats stats =>
    simp only [handleEvent, Except.ok.injEq, Prod.mk.injEq] at h2
    exact h2.1.symm
  | log message =>
    simp only [handleEvent, Except.ok.injEq, Prod.mk.injEq] at h2
    exact h2.1.symm
  | webrtc_offer data =>
    simp only [handleEvent] at h2
    split at h2
    · exact Except.noConfusion h2
    · split at h2
      · exact Except.noConfusion h2
      · simp only [Except.ok.injEq, Prod.mk.injEq] at h2
        exact h2.1.symm
  | webrtc_answer data =>
    simp only [handleEvent, Except.ok.injEq, Prod.mk.injEq] at h2
    exact h2.1.symm
  | webrtc_ice_candidate data =>
    simp only [handleEvent] at h2
    split at h2
    · exact Except.noConfusion h2
    · simp only [Except.ok.injEq, Prod.mk.injEq] at h2
      exact h2.1.symm

/-- C10, witness at a concrete routed event. -/
theorem c10_witness :
    (InEvent.status_update (.str "x")).isHeartbeat = false ∧
    handleEvent [] "s1" 0 (.status_update (.str "x")) =
      .ok ([], [{ tgt := .all, event := "server_log",
                  payload := .raw (.str "App Status: x") }]) ∧
    ([] : Registry) = [] :=
  ⟨rfl, rfl,
   c10_theorem [] "s1" 0 (.status_update (.str "x")) rfl []
     [{ tgt := .all, event := "server_log", payload := .raw (.str "App Status: x") }] rfl⟩

/-- Parser fidelity: the characteristic escape-bearing ICE payload (CRLF
escapes inside the candidate string) parses to the expected object, as under
`JSON.parse`. -/
theorem jsonParse_candidate_crlf :
    jsonParse "\x7b\"targetId\":\"d\",\"candidate\":\"x\\r\\ny\"\x7d" =
      some (.obj [("targetId", .str "d"), ("candidate", .str "x\r\ny")]) := rfl

/-- Parser fidelity: a fractional numeral parses to its exact decimal value. -/
theorem jsonParse_fractional : jsonParse "1.5" = some (.numDec 15 (-1)) := rfl

/-- Parser fidelity: an exponent numeral with integer value parses to that
integer. -/
theorem jsonParse_exponent : jsonParse "2e3" = some (.num 2000) := rfl

/-- Parser fidelity: a leading-zero numeral is rejected, as under
`JSON.parse`. -/
theorem jsonParse_leading_zero : jsonParse "007" = none := rfl

/-- Parser fidelity: a raw control character inside a string literal is
rejected, as under `JSON.parse`. -/
theorem jsonParse_raw_ctrl : jsonParse "\"a\nb\"" = none := rfl

/-- Parser fidelity: tab and unicode escapes decode to their characters. -/
theorem jsonParse_escapes : jsonParse "\"\\t\\u0041\"" = some (.str "\tA") := rfl

/-- Router fidelity at the parsed ICE payload: the string parses, the truthy
`targetId` is found, and only the candidate string is unicast to the target
device, with no throw. -/
theorem webrtc_ice_targeted_crlf :
    handleEvent [(some "d", { socketId := "sZ", name := "N", connectedAt := 0, lastSeen := none })]
      "s1" 0 (.webrtc_ice_candidate
        (.str "\x7b\"targetId\":\"d\",\"candidate\":\"x\\r\\ny\"\x7d")) =
      .ok ([(some "d", { socketId := "sZ", name := "N", connectedAt := 0, lastSeen := none })],
        [{ tgt := .toSocket "sZ", event := "webrtc_ice_candidate",
           payload := .raw (.str "x\r\ny") }]) := rfl

/-- Router fidelity: a `webrtc_offer` whose string payload is valid JSON does
not throw — here the truthy target is unknown, so the result is a silent
no-op rather than an error. -/
theorem webrtc_offer_parsed_no_throw :
    handleEvent [] "s1" 0 (.webrtc_offer
      (.str "\x7b\"targetId\":\"d\",\"offer\":\x7b\"sdp\":\"v=0\"\x7d\x7d")) =
      .ok ([], []) := rfl
